import Mathlib

/-!
Verification of the Participating_Tenderers_Scraper core (src/main.py) against
its natural-language specification.

The Python functions are shallowly embedded as executable Lean definitions:

* `format_date_for_search`  (main.py lines  99-120) — the DateNormalizer;
* `extract_date_from_text`  (main.py lines 155-184) — the DateExtractor,
  including an honest model of the three `re` patterns it searches with;
* `verify_project_date` / `search_for_project` (lines 187-289) — the
  CandidateResolver loop, with the browser surface abstracted to the detail
  text each candidate would yield (`none` models an exception while
  processing that candidate, which the Python code catches and skips);
* `extract_text_from_pdf`   (lines 292-354) — the DocumentTextResolver,
  with the external surface abstracted to an environment record describing
  the outcome of each external call, and the result instrumented with the
  finally-active window and the number of OCR-fallback entries;
* `extract_tenderers_from_pdf_text` (lines 357-392) — the RankingTableParser;
* `fillOtherTenderers`      (lines 444-449) — the runner-up write-back of
  `process_project`;
* `mergeRecord`             (lines 499-508) — the DatasetMerger write-back
  loop of `main`, with a dataframe modelled as a list of association-list
  rows.

Python strings are modelled as `String` / `List Char`; machine behaviour
(`str.strip`, `str.split`, `str.upper`, `re` search with backtracking,
`datetime.strptime` / `strftime`) is translated from the source semantics.
-/

/-- Python whitespace class `\s` (and the characters `str.strip()` removes),
restricted to the ASCII range, which covers every input in this development. -/
def isPySpace (c : Char) : Bool :=
  c == ' ' || c == '\t' || c == '\n' || c == '\r' || c == '\x0b' || c == '\x0c'

/-- Separator class `[-\s]` used by the date regexes in `extract_date_from_text`. -/
def isSepChar (c : Char) : Bool :=
  c == '-' || isPySpace c

/-- ASCII decimal digit character for a digit value (used to model `strftime`
zero-padded fields). Values ≥ 10 never occur where it is used. -/
def digitChar : Nat → Char
  | 0 => '0' | 1 => '1' | 2 => '2' | 3 => '3' | 4 => '4'
  | 5 => '5' | 6 => '6' | 7 => '7' | 8 => '8' | 9 => '9'
  | _ => '0'

/-- Numeric value of a sequence of ASCII digits, as Python `int()` computes it. -/
def digitsToNat (l : List Char) : Nat :=
  l.foldl (fun a c => 10 * a + (c.toNat - 48)) 0

/-- Python `str.strip()` on a list of characters. -/
def pyStripList (l : List Char) : List Char :=
  ((l.dropWhile isPySpace).reverse.dropWhile isPySpace).reverse

/-- Python `str.strip()`. -/
def pyStrip (s : String) : String := ⟨pyStripList s.data⟩

/-- Python `str.upper()` (ASCII). -/
def pyUpper (s : String) : String := ⟨s.data.map Char.toUpper⟩

/-- Python `str.lstrip("0")`: remove leading `'0'` characters. -/
def lstrip0 (l : List Char) : List Char := l.dropWhile (· == '0')

/-- Python `needle in hay` substring test on character lists. -/
def listContains (needle : List Char) : List Char → Bool
  | [] => needle.isEmpty
  | c :: t => needle.isPrefixOf (c :: t) || listContains needle t

/-- Python `needle in hay` substring test on strings. -/
def containsStr (needle hay : String) : Bool := listContains needle.data hay.data

/-- Python `s.split(c)` for a single-character separator: split on every
occurrence, keeping empty pieces. -/
def splitOnChar (c : Char) : List Char → List (List Char)
  | [] => [[]]
  | x :: xs =>
    if x = c then [] :: splitOnChar c xs
    else
      match splitOnChar c xs with
      | [] => [[x]]
      | h :: t => (x :: h) :: t

/-- Parse a non-empty all-digit character list to a number, as the successful
case of Python `int()` inside `strptime` field matching. -/
def parseNatDigits (l : List Char) : Option Nat :=
  if l.isEmpty then none
  else if l.all Char.isDigit then some (digitsToNat l) else none

/-- Model of a Python `datetime` value: the (year, month, day) triple.
A real `datetime` always satisfies `validDate`. -/
structure PyDate where
  year : Nat
  month : Nat
  day : Nat
deriving DecidableEq, Repr

/-- Gregorian leap-year rule, as `datetime` implements it. -/
def isLeap (y : Nat) : Prop := y % 4 = 0 ∧ (y % 100 ≠ 0 ∨ y % 400 = 0)

instance (y : Nat) : Decidable (isLeap y) := by unfold isLeap; infer_instance

/-- Days in a month, as `datetime` validates them. -/
def daysInMonth (y m : Nat) : Nat :=
  if m = 2 then (if isLeap y then 29 else 28)
  else if m = 4 ∨ m = 6 ∨ m = 9 ∨ m = 11 then 30
  else 31

/-- Validity of a (year, month, day) triple for Python `datetime`
(which requires 1 ≤ year ≤ 9999). -/
def validDate (y m d : Nat) : Prop :=
  1 ≤ y ∧ y ≤ 9999 ∧ 1 ≤ m ∧ m ≤ 12 ∧ 1 ≤ d ∧ d ≤ daysInMonth y m

instance (y m d : Nat) : Decidable (validDate y m d) := by
  unfold validDate; infer_instance

/-- C-locale `%b` month abbreviation, as `strftime` renders it.
Out-of-range months cannot occur in a real `datetime`; they render empty. -/
def mon3 : Nat → String
  | 1 => "Jan" | 2 => "Feb" | 3 => "Mar" | 4 => "Apr" | 5 => "May" | 6 => "Jun"
  | 7 => "Jul" | 8 => "Aug" | 9 => "Sep" | 10 => "Oct" | 11 => "Nov" | 12 => "Dec"
  | _ => ""

/-- Case-insensitive `%b` month-abbreviation matching, as `strptime` does it. -/
def monthFromAbbr (l : List Char) : Option Nat :=
  match String.mk (l.map Char.toLower) with
  | "jan" => some 1 | "feb" => some 2 | "mar" => some 3 | "apr" => some 4
  | "may" => some 5 | "jun" => some 6 | "jul" => some 7 | "aug" => some 8
  | "sep" => some 9 | "oct" => some 10 | "nov" => some 11 | "dec" => some 12
  | _ => none

/-- Case-insensitive `%B` full-month-name matching, as `strptime` does it. -/
def monthFromFull (l : List Char) : Option Nat :=
  match String.mk (l.map Char.toLower) with
  | "january" => some 1 | "february" => some 2 | "march" => some 3
  | "april" => some 4 | "may" => some 5 | "june" => some 6
  | "july" => some 7 | "august" => some 8 | "september" => some 9
  | "october" => some 10 | "november" => some 11 | "december" => some 12
  | _ => none

/-- Two-digit zero-padded field (`%d`, `%m`, `%y` of values < 100). -/
def pad2 (n : Nat) : List Char := [digitChar (n / 10 % 10), digitChar (n % 10)]

/-- Four-digit zero-padded field (`%Y` of values ≤ 9999). -/
def pad4 (n : Nat) : List Char :=
  [digitChar (n / 1000 % 10), digitChar (n / 100 % 10),
   digitChar (n / 10 % 10), digitChar (n % 10)]

/-- Python `dt.strftime("%d-%b-%y")` as a character list. -/
def strftime_dby (dt : PyDate) : List Char :=
  pad2 dt.day ++ '-' :: (mon3 dt.month).data ++ '-' :: pad2 (dt.year % 100)

/-- Python `datetime.strptime(s, "%Y-%m-%d")`: three dash-separated all-digit
fields of widths ≤ 4, ≤ 2, ≤ 2 making a valid date; `none` models the
`ValueError` the Python call raises otherwise. -/
def strptime_Ymd (cs : List Char) : Option PyDate :=
  match splitOnChar '-' cs with
  | [ys, ms, ds] =>
    if ys.length ≤ 4 ∧ ms.length ≤ 2 ∧ ds.length ≤ 2 then
      match parseNatDigits ys, parseNatDigits ms, parseNatDigits ds with
      | some y, some m, some d => if validDate y m d then some ⟨y, m, d⟩ else none
      | _, _, _ => none
    else none
  | _ => none

/-- Python `datetime.strptime(s, "%d-%b-%y")`, with `%y` mapped to 2000–2068 /
1969–1999 as CPython does. Its result is only used by `format_date_for_search`
to decide which of two identical `return date_input` branches runs. -/
def strptime_dMonyy (cs : List Char) : Option PyDate :=
  match splitOnChar '-' cs with
  | [ds, ms, ys] =>
    if ds.length ≤ 2 ∧ ys.length ≤ 2 then
      match parseNatDigits ds, monthFromAbbr ms, parseNatDigits ys with
      | some d, some m, some yy =>
        let y := if yy ≤ 68 then 2000 + yy else 1900 + yy
        if validDate y m d then some ⟨y, m, d⟩ else none
      | _, _, _ => none
    else none
  | _ => none

/-- Input domain of `format_date_for_search` (the Python parameter is
dynamically typed): a `datetime` instance, a `str`, or any other value —
the last carries the string `str(value)` renders, which is what the
function returns for it (main.py line 120). For example
`datetime.date(2025, 3, 13)` is `other "2025-03-13"`. -/
inductive DateInput
  | dt (d : PyDate)
  | str (s : String)
  | other (reprStr : String)

/-- Embedding of `format_date_for_search` (main.py lines 99-120):
datetime values are rendered with `strftime("%d-%b-%y").lstrip("0")`;
strings are parsed as `%Y-%m-%d` (dropping a time suffix after the first
space) and re-rendered; on parse failure the original string is returned
unchanged (both the already-canonical branch and the warning branch
return `date_input`); any other value is rendered with `str()`. -/
def format_date_for_search : DateInput → String
  | .dt d => ⟨lstrip0 (strftime_dby d)⟩
  | .str s =>
    let cs := s.data
    let core := if listContains [' '] cs then (splitOnChar ' ' cs).headD [] else cs
    match strptime_Ymd core with
    | some d => ⟨lstrip0 (strftime_dby d)⟩
    | none =>
      match strptime_dMonyy cs with
      | some _ => s
      | none => s
  | .other r => r

/-- Canonical ISO rendering `"%04d-%02d-%02d"` of a date, the shape
`str(datetime.date(y, m, d))` and the Excel date column produce. -/
def isoOf (y m d : Nat) : String := ⟨pad4 y ++ '-' :: pad2 m ++ '-' :: pad2 d⟩

/-! ## DateExtractor: `extract_date_from_text` (main.py lines 155-184)

The three `re` patterns are modelled directly, with Python's
leftmost-position, greedy-with-backtracking semantics. Because the
character classes of adjacent pattern pieces are disjoint
(digits vs `[-\s]` vs `[A-Za-z]`), greedy maximal-munch with an explicit
2-then-1 attempt for `(\d{1,2})` is exactly what the `re` engine produces;
the one reachable backtracking step (two leading digits whose continuation
fails) is written out explicitly. -/

/-- Tail of patterns 1 and 2 after the day group:
`[-\s]+([A-Za-z]+)[-\s]+(\d{4})`, anchored at the start of `rest`;
returns the month-name and year captures. -/
def p2Tail (rest : List Char) : Option (List Char × List Char) :=
  let sep1 := rest.takeWhile isSepChar
  let r1 := rest.dropWhile isSepChar
  if sep1.isEmpty then none
  else
    let mon := r1.takeWhile (fun c => c.isAlpha)
    let r2 := r1.dropWhile (fun c => c.isAlpha)
    if mon.isEmpty then none
    else
      let sep2 := r2.takeWhile isSepChar
      let r3 := r2.dropWhile isSepChar
      if sep2.isEmpty then none
      else
        match r3 with
        | a :: b :: c :: d :: _ =>
          if (a.isDigit && b.isDigit && c.isDigit && d.isDigit) then some (mon, [a, b, c, d])
          else none
        | _ => none

/-- Pattern 2, `(\d{1,2})[-\s]+([A-Za-z]+)[-\s]+(\d{4})`, anchored at the
start of `l`: try a two-digit day first (greedy `{1,2}`), then backtrack to
one digit. Returns the (day, month, year) captures. -/
def p2At (l : List Char) : Option (List Char × List Char × List Char) :=
  match l with
  | [] => none
  | c1 :: rest =>
    if c1.isDigit then
      match rest with
      | [] => none
      | c2 :: rest2 =>
        if c2.isDigit then
          match p2Tail rest2 with
          | some (m, y) => some ([c1, c2], m, y)
          | none =>
            match p2Tail rest with
            | some (m, y) => some ([c1], m, y)
            | none => none
        else
          match p2Tail rest with
          | some (m, y) => some ([c1], m, y)
          | none => none
    else none

/-- Literal `DATE OF AWARD` of pattern 1, matched case-insensitively. -/
def awardLit : List Char := "DATE OF AWARD".data

/-- Pattern 1, `DATE OF AWARD[^\d]*(\d{1,2})[-\s]+([A-Za-z]+)[-\s]+(\d{4})`
with `re.IGNORECASE`, anchored at the start of `l`: the literal label, any
run of non-digits, then the same tail as pattern 2. -/
def p1At (l : List Char) : Option (List Char × List Char × List Char) :=
  if awardLit.isPrefixOf (l.map Char.toUpper) then
    p2At ((l.drop awardLit.length).dropWhile (fun c => !c.isDigit))
  else none

/-- Tail of pattern 3 after the day group: `-([A-Za-z]{3})-(\d{2})`,
anchored at the start of `rest`. -/
def p3Tail (rest : List Char) : Option (List Char × List Char) :=
  match rest with
  | '-' :: a :: b :: c :: '-' :: y1 :: y2 :: _ =>
    if (a.isAlpha && b.isAlpha && c.isAlpha && y1.isDigit && y2.isDigit) then
      some ([a, b, c], [y1, y2])
    else none
  | _ => none

/-- Pattern 3, `(\d{1,2})-([A-Za-z]{3})-(\d{2})`, anchored at the start of
`l`, with the same greedy 2-then-1 day attempt. -/
def p3At (l : List Char) : Option (List Char × List Char × List Char) :=
  match l with
  | [] => none
  | c1 :: rest =>
    if c1.isDigit then
      match rest with
      | [] => none
      | c2 :: rest2 =>
        if c2.isDigit then
          match p3Tail rest2 with
          | some (m, y) => some ([c1, c2], m, y)
          | none =>
            match p3Tail rest with
            | some (m, y) => some ([c1], m, y)
            | none => none
        else
          match p3Tail rest with
          | some (m, y) => some ([c1], m, y)
          | none => none
    else none

/-- Python `re.search`: try the anchored matcher at each position, leftmost
first (including the empty suffix, where every pattern here fails). -/
def searchAux (f : List Char → Option α) : List Char → Option α
  | [] => f []
  | c :: t =>
    match f (c :: t) with
    | some r => some r
    | none => searchAux f t

/-- Loop body of `extract_date_from_text` for one pattern's match (main.py
lines 166-183): expand a 2-digit year to the 2000s, parse
`f"{day} {month} {year}"` with `%d %B %Y` when the month capture is longer
than 3 characters and `%d %b %Y` otherwise, and render the result with
`strftime("%d-%b-%y").lstrip("0")`; a parse failure (`none`) makes the
caller continue with the next pattern. -/
def tryGroups : Option (List Char × List Char × List Char) → Option String
  | none => none
  | some (day, mon, year) =>
    let year := if year.length = 2 then '2' :: '0' :: year else year
    let d := digitsToNat day
    let y := digitsToNat year
    match (if mon.length > 3 then monthFromFull mon else monthFromAbbr mon) with
    | some m => if validDate y m d then some ⟨lstrip0 (strftime_dby ⟨y, m, d⟩)⟩ else none
    | none => none

/-- Embedding of `extract_date_from_text` (main.py lines 155-184): the three
patterns are tried in order, most specific first; the first pattern that
matches somewhere in the text and whose captures parse to a valid date
yields the canonical string; otherwise the next pattern is tried, and
`none` is returned when all fail. -/
def extract_date_from_text (text : String) : Option String :=
  match tryGroups (searchAux p1At text.data) with
  | some r => some r
  | none =>
    match tryGroups (searchAux p2At text.data) with
    | some r => some r
    | none =>
      match tryGroups (searchAux p3At text.data) with
      | some r => some r
      | none => none

/-! ## CandidateResolver: `verify_project_date` and `search_for_project`
(main.py lines 187-289)

The browser surface is abstracted to what each candidate's detail popup
would show: `some text` is the popup text read after clicking the
candidate, `none` models an exception anywhere while processing that
candidate (popup wait, click, read, dismissal) — the Python code catches
it (lines 206-209 and 275-278) and moves to the next candidate.
`search_for_project` additionally reports how many candidates were
examined, so that "no further candidates are examined after a match" is
an observable fact of the model. -/

/-- Embedding of `verify_project_date` (main.py lines 187-209): read the
popup text, extract a date from it, and compare to the expected canonical
date; any failure (exception, or no date found) yields `false`. -/
def verify_project_date (popupText : Option String) (expected : String) : Bool :=
  match popupText with
  | none => false
  | some t =>
    match extract_date_from_text t with
    | some found => found = expected
    | none => false

/-- Candidate loop of `search_for_project` (main.py lines 244-281):
return at the first candidate whose date verifies, else continue;
also count examined candidates. -/
def searchLoop (expected : String) : List (Option String) → Bool × Nat
  | [] => (false, 0)
  | c :: rest =>
    if verify_project_date c expected then (true, 1)
    else
      let r := searchLoop expected rest
      (r.1, r.2 + 1)

/-- Embedding of `search_for_project` (main.py lines 212-289): an empty
candidate list returns not-found immediately (line 239-241); otherwise the
candidates are tried in presentation order. The first component is the
Python return value; the second is the number of candidates examined. -/
def search_for_project (candidates : List (Option String)) (expected : String) :
    Bool × Nat :=
  match candidates with
  | [] => (false, 0)
  | _ => searchLoop expected candidates

/-! ## DocumentTextResolver: `extract_text_from_pdf` (main.py lines 292-354)

The external surface is abstracted to an environment describing the
outcome of each external call, and the result records the text returned,
how many times the OCR-fallback block (lines 322-339) was entered, which
window is active when the function returns, and whether an exception
escaped (the function catches everything, so this is always `false`). -/

/-- Which browser window is active: the caller's original window, or the
new tab opened for the PDF. -/
inductive Window
  | original
  | pdfTab
deriving DecidableEq, Repr

/-- Outcomes of the external calls `extract_text_from_pdf` makes.
`openFails` covers an exception anywhere before the structured-extraction
attempt (window open, window wait, switch); `structuredText` is the text
Method 1 produces (empty both when the viewer frame yields nothing and
when Method 1 raises, since its `except: pass` leaves `text` empty);
`ocrResult` is `none` when the screenshot/OCR call raises and
`some t` when OCR returns `t`. -/
structure PdfEnv where
  openFails : Bool
  structuredText : String
  tesseractAvailable : Bool
  ocrResult : Option String
deriving DecidableEq, Repr

/-- Observable result of one `extract_text_from_pdf` call. -/
structure PdfOutcome where
  text : String
  ocrPathRuns : Nat
  activeWindow : Window
  exceptionEscapes : Bool
deriving DecidableEq, Repr

/-- Embedding of `extract_text_from_pdf` (main.py lines 292-354), following
the source control flow: open the PDF in a new tab (an exception here is
caught at line 347 and the handler switches back to the original window);
try structured extraction; if it yielded nothing, enter the OCR fallback —
where an unavailable Tesseract executes `return ""` at line 330 directly
from inside the new tab, skipping the `driver.close()` /
`switch_to.window(original_window)` cleanup of lines 342-343; otherwise
OCR runs (an OCR exception is caught and leaves the text empty), the tab
is closed and the original window restored. -/
def extract_text_from_pdf (env : PdfEnv) : PdfOutcome :=
  if env.openFails then
    { text := "", ocrPathRuns := 0, activeWindow := .original, exceptionEscapes := false }
  else
    let text := env.structuredText
    if text = "" then
      if env.tesseractAvailable then
        let text := env.ocrResult.getD ""
        { text := text, ocrPathRuns := 1, activeWindow := .original,
          exceptionEscapes := false }
      else
        { text := "", ocrPathRuns := 1, activeWindow := .pdfTab,
          exceptionEscapes := false }
    else
      { text := text, ocrPathRuns := 0, activeWindow := .original,
        exceptionEscapes := false }

/-! ## RankingTableParser: `extract_tenderers_from_pdf_text`
(main.py lines 357-392) -/

/-- Loop state of `extract_tenderers_from_pdf_text`: the provisional
winner, the runners-up collected so far, and the table-scanning flag. -/
structure TendererState where
  winner : String
  others : List String
  foundTable : Bool
deriving DecidableEq, Repr

/-- Rank-line test `re.match(r'^\s*(\d+)\s+(.+)$', line.strip())` together
with the capture handling of main.py lines 379-382: the stripped line must
be a maximal run of digits, then at least one whitespace character, then a
non-empty remainder; the captures are `int(group(1))` and
`group(2).strip()`. (Greedy `\d+` followed by `\s+` admits no other
backtracking decomposition, since no character is both.) -/
def rankMatch (line : String) : Option (Nat × String) :=
  let s := pyStripList line.data
  let digits := s.takeWhile Char.isDigit
  let afterDigits := s.dropWhile Char.isDigit
  let ws := afterDigits.takeWhile isPySpace
  let rest := afterDigits.dropWhile isPySpace
  if digits.isEmpty || ws.isEmpty || rest.isEmpty then none
  else some (digitsToNat digits, ⟨pyStripList rest⟩)

/-- One iteration of the `for i, line in enumerate(lines)` loop of
`extract_tenderers_from_pdf_text` (main.py lines 365-390), in source
order: the "SUCCESSFUL TENDERER" check always runs and captures the next
line when one exists; the table-header check enters table mode and skips
the rest of the iteration (`continue`); in table mode a rank line updates
winner (rank 1) or appends a runner-up, and a blank line leaves table
mode, while any other line is skipped without leaving it. -/
def tendererStep (lines : List String) (st : TendererState) (p : Nat × String) :
    TendererState :=
  let i := p.1
  let line := p.2
  let st1 :=
    if containsStr "SUCCESSFUL TENDERER" (pyUpper line) then
      if i + 1 < lines.length then { st with winner := pyStrip (lines.getD (i + 1) "") }
      else st
    else st
  if containsStr "RANKING" (pyUpper line) && containsStr "NAME OF TENDERER" (pyUpper line) then
    { st1 with foundTable := true }
  else if st1.foundTable then
    match rankMatch line with
    | some (r, name) =>
      if r = 1 then { st1 with winner := name }
      else { st1 with others := st1.others ++ [name] }
    | none =>
      if pyStrip line = "" then { st1 with foundTable := false } else st1
  else st1

/-- Core of `extract_tenderers_from_pdf_text` on an already-split line
list (the loop of main.py lines 365-392). -/
def extract_tenderers_from_lines (lines : List String) : String × List String :=
  let final := lines.enum.foldl (tendererStep lines) ⟨"", [], false⟩
  (final.winner, final.others)

/-- Embedding of `extract_tenderers_from_pdf_text` (main.py lines 357-392):
split the text on newlines and run the line loop. -/
def extract_tenderers_from_pdf_text (pdf_text : String) : String × List String :=
  extract_tenderers_from_lines ((splitOnChar '\n' pdf_text.data).map String.mk)

/-! ## `process_project` runner-up write-back (main.py lines 444-449) and
the `main` write-back loop (main.py lines 499-508)

A row / record is an association list from column name to stored value;
`setKey` is dict/column assignment. -/

/-- Dictionary or dataframe-cell assignment `row[k] = v`: replace the
binding if the key is present, append it otherwise. -/
def setKey : List (String × String) → String → String → List (String × String)
  | [], k, v => [(k, v)]
  | (k1, v1) :: t, k, v =>
    if k1 = k then (k, v) :: t else (k1, v1) :: setKey t k v

/-- Association-list lookup (dict access / dataframe cell read). -/
def lookupField : List (String × String) → String → Option String
  | [], _ => none
  | (k1, v1) :: t, k => if k1 = k then some v1 else lookupField t k

/-- Column name `f'Name of Other Participating Tenderer - {i+1}'` for the
zero-based loop index `i` (main.py line 448). -/
def runnerColumn (i : Nat) : String :=
  "Name of Other Participating Tenderer - " ++ toString (i + 1)

/-- Embedding of the runner-up write-back of `process_project` (main.py
lines 447-449): `for i, tenderer in enumerate(other_tenderers[:4])`,
assigning each name to its runner-up column. -/
def fillOtherTenderers (info : List (String × String)) (others : List String) :
    List (String × String) :=
  (others.take 4).enum.foldl (fun acc p => setKey acc (runnerColumn p.1) p.2) info

/-- Row-matching mask of the `main` write-back loop (main.py line 504):
the row's raw stored `Location` and `Date of Award` both equal the
record's. -/
def rowMatches (record row : List (String × String)) : Bool :=
  (lookupField row "Location" == lookupField record "Location") &&
  (lookupField row "Date of Award" == lookupField record "Date of Award")

/-- Overwrite every field of the record into a row, modelling the
`for column, value in updated_project.items(): df.loc[mask, column] = value`
loop's effect on one masked row (main.py lines 507-508). -/
def applyRecord (record row : List (String × String)) : List (String × String) :=
  record.foldl (fun r kv => setKey r kv.1 kv.2) row

/-- Embedding of the write-back loop of `main` (main.py lines 499-508) for
one enriched record: when some row matches the record's identity
(`mask.any()`), every matching row receives every field of the record;
rows the mask excludes are not touched. -/
def mergeRecord (df : List (List (String × String))) (record : List (String × String)) :
    List (List (String × String)) :=
  if df.any (rowMatches record) then
    df.map (fun row => if rowMatches record row then applyRecord record row else row)
  else df

/-! ## Helper lemmas -/

/-- Frame lemma for association-list assignment: writing one key leaves
every other key's lookup unchanged. -/
theorem lookupField_setKey_ne (info : List (String × String)) (k1 v k : String)
    (h : k ≠ k1) : lookupField (setKey info k1 v) k = lookupField info k := by
  have h1 : ¬(k1 = k) := fun he => h he.symm
  induction info with
  | nil => simp [setKey, lookupField, h1]
  | cons p t ih =>
    obtain ⟨a, b⟩ := p
    by_cases hp : a = k1
    · subst hp
      simp [setKey, lookupField, h1]
    · simp only [setKey, if_neg hp, lookupField]
      by_cases hk : a = k <;> simp [hk, ih]

/-- Frame lemma for the runner-up fold: a key outside the written columns
is untouched. -/
theorem lookupField_runnerFold (ps : List (Nat × String)) (info : List (String × String))
    (k : String) (h : ∀ p ∈ ps, k ≠ runnerColumn p.1) :
    lookupField (ps.foldl (fun acc p => setKey acc (runnerColumn p.1) p.2) info) k =
      lookupField info k := by
  induction ps generalizing info with
  | nil => rfl
  | cons p t ih =>
    rw [List.foldl_cons, ih _ (fun q hq => h q (List.mem_cons_of_mem p hq)),
      lookupField_setKey_ne _ _ _ _ (h p (List.mem_cons_self p t))]

/-- Candidates that all fail verification produce a not-found loop result. -/
theorem searchLoop_all_false (e : String) (cs : List (Option String))
    (h : ∀ c ∈ cs, verify_project_date c e = false) : (searchLoop e cs).1 = false := by
  induction cs with
  | nil => rfl
  | cons c t ih =>
    have hc := h c (List.mem_cons_self c t)
    simp [searchLoop, hc]
    exact ih (fun x hx => h x (List.mem_cons_of_mem c hx))

/-! ## Claim theorems -/

/-- C1: the claim states that every exit path of `extract_text_from_pdf`
restores the caller's original window. The code violates this on the
OCR-engine-unavailable path: with the tab open, structured extraction
empty and Tesseract unavailable, the `return ""` at main.py line 330 exits
while the new PDF tab is still the active window (the cleanup at lines
342-343 never runs), unlike the ordinary OCR path, the non-empty
structured path, and the caught-exception path, which all end on the
original window. -/
theorem extract_text_from_pdf_window_bug :
    (extract_text_from_pdf ⟨false, "", false, none⟩).activeWindow = Window.pdfTab ∧
    Window.pdfTab ≠ Window.original ∧
    (extract_text_from_pdf ⟨false, "", true, some "ocr text"⟩).activeWindow = Window.original ∧
    (extract_text_from_pdf ⟨false, "structured", false, none⟩).activeWindow = Window.original ∧
    (extract_text_from_pdf ⟨true, "", false, none⟩).activeWindow = Window.original := by
  decide

/-- C2: `search_for_project` examines candidates in order and succeeds at
the first one whose extracted detail date equals the expected date: with
three candidates where the second matches, the result is found after
examining exactly two candidates (the first may have raised — `none` — or
merely mismatched; the third is never examined); an empty candidate list
reports not found immediately; and if every candidate fails verification
the result is not found. -/
theorem search_for_project_sequential :
    (∀ (e : String) (c1 c2 c3 : Option String),
      verify_project_date c1 e = false → verify_project_date c2 e = true →
      search_for_project [c1, c2, c3] e = (true, 2))
    ∧ (∀ e : String, search_for_project [] e = (false, 0))
    ∧ (∀ (e : String) (cs : List (Option String)),
        (∀ c ∈ cs, verify_project_date c e = false) →
        (search_for_project cs e).1 = false) := by
  refine ⟨?_, ?_, ?_⟩
  · intro e c1 c2 c3 h1 h2
    simp [search_for_project, searchLoop, h1, h2]
  · intro e
    rfl
  · intro e cs h
    match cs with
    | [] => rfl
    | c :: t => exact searchLoop_all_false e (c :: t) h

/-- C2 witness: candidate 1 raises an internal error, candidate 2's detail
text carries the expected award date, candidate 3 exists; resolution
reports found after examining exactly the first two. -/
theorem search_for_project_sequential_witness :
    search_for_project
      [none, some "DATE OF AWARD: 13-Mar-2025", some "DATE OF AWARD: 1-Jan-2020"]
      "13-Mar-25" = (true, 2) :=
  search_for_project_sequential.1 "13-Mar-25" none
    (some "DATE OF AWARD: 13-Mar-2025") (some "DATE OF AWARD: 1-Jan-2020")
    (by decide) (by decide)

/-- C3: the write-back loop of `main` preserves the dataset's row count
and leaves every row whose raw `Location` / `Date of Award` pair differs
from the record's identity entirely unchanged — all its columns,
including ones the record does not carry. -/
theorem mergeRecord_frame (df : List (List (String × String)))
    (record : List (String × String)) :
    (mergeRecord df record).length = df.length ∧
    ∀ (i : Nat) (row : List (String × String)), df[i]? = some row →
      rowMatches record row = false → (mergeRecord df record)[i]? = some row := by
  unfold mergeRecord
  by_cases hany : df.any (rowMatches record) = true
  · rw [if_pos hany]
    refine ⟨List.length_map _ _, ?_⟩
    intro i row hget hm
    rw [List.getElem?_map, hget, Option.map_some']
    simp [hm]
  · rw [if_neg hany]
    exact ⟨rfl, fun i row hget hm => hget⟩

/-- C3 witness: merging a record whose identity is ("B", "2-Feb-25") into
a two-row dataset leaves the non-matching first row — including its
`Extra` column, absent from the record — byte-for-byte unchanged. -/
theorem mergeRecord_frame_witness :
    (mergeRecord
      [[("Location", "A"), ("Date of Award", "1-Jan-25"), ("Extra", "keep")],
       [("Location", "B"), ("Date of Award", "2-Feb-25"), ("Extra", "old")]]
      [("Location", "B"), ("Date of Award", "2-Feb-25"),
       ("Name of Successful Tenderer", "Winner")])[0]? =
      some [("Location", "A"), ("Date of Award", "1-Jan-25"), ("Extra", "keep")] :=
  (mergeRecord_frame _ _).2 0 _ rfl (by decide)

/-- C4: the ranking-table parser on the specified five lines returns
winner "Alpha Pte Ltd" and runners-up ["Beta Pte Ltd"], and a rank line
"3 Gamma" appearing after the blank line is captured into neither output,
because the blank line ended table-scanning mode. -/
theorem extract_tenderers_ranking_example :
    extract_tenderers_from_lines
      ["RANKING NAME OF TENDERER", "1 Alpha Pte Ltd", "2 Beta Pte Ltd", "", "unrelated"] =
      ("Alpha Pte Ltd", ["Beta Pte Ltd"])
    ∧ extract_tenderers_from_lines
      ["RANKING NAME OF TENDERER", "1 Alpha Pte Ltd", "2 Beta Pte Ltd", "", "3 Gamma"] =
      ("Alpha Pte Ltd", ["Beta Pte Ltd"]) := by
  decide

/-- C5: whenever the PDF tab opens and structured extraction yields empty
text, the OCR fallback block runs exactly once; and when the OCR engine is
unavailable the function returns the empty string with no exception
escaping (the model's `exceptionEscapes` is `false` on every path). -/
theorem ocr_fallback_once (env : PdfEnv) (h1 : env.openFails = false)
    (h2 : env.structuredText = "") :
    (extract_text_from_pdf env).ocrPathRuns = 1 ∧
    (env.tesseractAvailable = false →
      (extract_text_from_pdf env).text = "" ∧
      (extract_text_from_pdf env).exceptionEscapes = false) := by
  unfold extract_text_from_pdf
  rw [h1]
  cases h3 : env.tesseractAvailable <;> simp [h2, h3]

/-- C5 witness: a run with an open tab, empty structured text and no
Tesseract yields one OCR-path entry, empty text, and no escaping
exception. -/
theorem ocr_fallback_once_witness :
    (⟨false, "", false, none⟩ : PdfEnv).openFails = false ∧
    (extract_text_from_pdf ⟨false, "", false, none⟩).ocrPathRuns = 1 ∧
    (extract_text_from_pdf ⟨false, "", false, none⟩).text = "" ∧
    (extract_text_from_pdf ⟨false, "", false, none⟩).exceptionEscapes = false := by
  have h := ocr_fallback_once ⟨false, "", false, none⟩ rfl rfl
  exact ⟨rfl, h.1, (h.2 rfl).1, (h.2 rfl).2⟩

/-- C8: the date extractor maps text containing "DATE OF AWARD: 7-Aug-2024"
to "7-Aug-24" and "no date here" to none; the label pattern is matched
case-insensitively; the more specific label pattern wins over an earlier
generic date in the same text; a 2-digit year is expanded into the 2000s
(visible on 29-Feb-00, which is only a valid date in 2000, not 1900); and
the expansion step rewrites any 2-digit year capture exactly as if the
4-digit year "20yy" had been captured. -/
theorem extract_date_examples :
    extract_date_from_text "Project X. DATE OF AWARD: 7-Aug-2024. Details." = some "7-Aug-24"
    ∧ extract_date_from_text "no date here" = none
    ∧ extract_date_from_text "date of award: 7-aug-2024" = some "7-Aug-24"
    ∧ extract_date_from_text "5-May-2020 DATE OF AWARD: 7-Aug-2024" = some "7-Aug-24"
    ∧ extract_date_from_text "29-Feb-00" = some "29-Feb-00"
    ∧ ∀ (day mon : List Char) (c1 c2 : Char),
        tryGroups (some (day, mon, [c1, c2])) =
          tryGroups (some (day, mon, ['2', '0', c1, c2])) := by
  refine ⟨by decide, by decide, by decide, by decide, by decide, ?_⟩
  intro day mon c1 c2
  simp [tryGroups]

/-- C9: the runner-up write-back touches only the four columns
`Name of Other Participating Tenderer - 1` … `- 4` (every other key's
value is unchanged); with five extracted runners-up exactly the first
four are written, in order; and the truncated sequence never exceeds
four elements. -/
theorem fillOtherTenderers_bounded :
    (∀ (info : List (String × String)) (others : List String) (k : String),
      k ≠ runnerColumn 0 → k ≠ runnerColumn 1 → k ≠ runnerColumn 2 → k ≠ runnerColumn 3 →
      lookupField (fillOtherTenderers info others) k = lookupField info k)
    ∧ fillOtherTenderers [] ["a", "b", "c", "d", "e"] =
        [(runnerColumn 0, "a"), (runnerColumn 1, "b"),
         (runnerColumn 2, "c"), (runnerColumn 3, "d")]
    ∧ (∀ others : List String, (others.take 4).length ≤ 4) := by
  refine ⟨?_, by decide, ?_⟩
  · intro info others k h0 h1 h2 h3
    unfold fillOtherTenderers
    refine lookupField_runnerFold _ _ _ ?_
    intro p hp
    have hlt : p.1 < (others.take 4).length := List.fst_lt_of_mem_enum hp
    have h4 : (others.take 4).length ≤ 4 := List.length_take_le 4 others
    have h5 : p.1 < 4 := lt_of_lt_of_le hlt h4
    interval_cases h : p.1
    · exact h0
    · exact h1
    · exact h2
    · exact h3
  · intro others
    exact List.length_take_le 4 others

/-- C9 witness: with an `Extra` column present and five runners-up, the
`Extra` value is untouched while columns 1–4 receive the first four
names. -/
theorem fillOtherTenderers_bounded_witness :
    lookupField (fillOtherTenderers [("Extra", "keep")] ["a", "b", "c", "d", "e"]) "Extra" =
      lookupField [("Extra", "keep")] "Extra" ∧
    fillOtherTenderers [] ["a", "b", "c", "d", "e"] =
      [(runnerColumn 0, "a"), (runnerColumn 1, "b"),
       (runnerColumn 2, "c"), (runnerColumn 3, "d")] :=
  ⟨fillOtherTenderers_bounded.1 [("Extra", "keep")] ["a", "b", "c", "d", "e"] "Extra"
      (by decide) (by decide) (by decide) (by decide),
    fillOtherTenderers_bounded.2.1⟩

/-- C10: the ranking-table parser is total by construction (it is a Lean
function returning a pair for every input); when a "SUCCESSFUL TENDERER"
line is the final line, the `i + 1 < len(lines)` guard skips the
next-line capture and the winner stays empty instead of indexing out of
bounds; and while in table-scanning mode a non-blank line that matches
neither the rank pattern nor the header leaves table-scanning mode on
(only a blank line ends it), shown both as a step-level invariant and on
a concrete input where a junk line sits between two rank lines. -/
theorem extract_tenderers_total_and_guarded :
    (∀ (lines : List String) (st : TendererState) (i : Nat) (line : String),
      st.foundTable = true →
      (containsStr "RANKING" (pyUpper line) &&
        containsStr "NAME OF TENDERER" (pyUpper line)) = false →
      rankMatch line = none → pyStrip line ≠ "" →
      (tendererStep lines st (i, line)).foundTable = true)
    ∧ extract_tenderers_from_lines ["SUCCESSFUL TENDERER"] = ("", [])
    ∧ extract_tenderers_from_lines ["intro text", "SUCCESSFUL TENDERER"] = ("", [])
    ∧ extract_tenderers_from_lines
        ["RANKING NAME OF TENDERER", "1 Alpha", "not a rank line", "2 Beta"] =
        ("Alpha", ["Beta"]) := by
  refine ⟨?_, by decide, by decide, by decide⟩
  intro lines st i line hft hhdr hrm hblank
  unfold tendererStep
  by_cases hS : containsStr "SUCCESSFUL TENDERER" (pyUpper line) = true <;>
    by_cases hI : i + 1 < lines.length <;>
      simp [hS, hI, hhdr, hft, hrm, hblank]

/-- C10 witness: a concrete application of the step-level invariant — in
table mode, the junk line "xy z" (non-blank, not a rank line, not a
header) keeps table-scanning mode on. -/
theorem extract_tenderers_total_and_guarded_witness :
    (tendererStep [] ⟨"W", ["r"], true⟩ (0, "xy z")).foundTable = true :=
  extract_tenderers_total_and_guarded.1 [] ⟨"W", ["r"], true⟩ 0 "xy z"
    rfl (by decide) (by decide) (by decide)

/-! ## Date-arithmetic lemmas for the DateNormalizer claims -/

theorem digitChar_isDigit (k : Nat) : (digitChar k).isDigit = true := by
  match k with
  | 0 | 1 | 2 | 3 | 4 | 5 | 6 | 7 | 8 | 9 => decide
  | n + 10 => rfl

theorem digitChar_val (k : Nat) (h : k < 10) : (digitChar k).toNat - 48 = k := by
  interval_cases k <;> decide

theorem digitChar_ne (k : Nat) (c : Char) (hc : c.isDigit = false) : digitChar k ≠ c := by
  intro he
  rw [← he, digitChar_isDigit k] at hc
  exact absurd hc (by decide)

theorem not_mem_pad2 (n : Nat) (c : Char) (hc : c.isDigit = false) : c ∉ pad2 n := by
  intro hm
  simp only [pad2, List.mem_cons, List.not_mem_nil, or_false] at hm
  rcases hm with h | h <;> exact digitChar_ne _ c hc h.symm

theorem not_mem_pad4 (n : Nat) (c : Char) (hc : c.isDigit = false) : c ∉ pad4 n := by
  intro hm
  simp only [pad4, List.mem_cons, List.not_mem_nil, or_false] at hm
  rcases hm with h | h | h | h <;> exact digitChar_ne _ c hc h.symm

theorem splitOnChar_not_mem (c : Char) (l : List Char) (h : c ∉ l) :
    splitOnChar c l = [l] := by
  induction l with
  | nil => rfl
  | cons x xs ih =>
    have hx : ¬(x = c) := fun he => h (by rw [← he]; exact List.mem_cons_self x xs)
    have hxs : c ∉ xs := fun hm => h (List.mem_cons_of_mem x hm)
    simp only [splitOnChar, if_neg hx, ih hxs]

theorem splitOnChar_append (c : Char) (a b : List Char) (h : c ∉ a) :
    splitOnChar c (a ++ c :: b) = a :: splitOnChar c b := by
  induction a with
  | nil => simp [splitOnChar]
  | cons x xs ih =>
    have hx : ¬(x = c) := fun he => h (by rw [← he]; exact List.mem_cons_self x xs)
    have hxs : c ∉ xs := fun hm => h (List.mem_cons_of_mem x hm)
    show splitOnChar c (x :: (xs ++ c :: b)) = (x :: xs) :: splitOnChar c b
    simp only [splitOnChar, if_neg hx]
    rw [ih hxs]

theorem parse_pad2 (m : Nat) (h : m < 100) : parseNatDigits (pad2 m) = some m := by
  have h1 : m / 10 % 10 < 10 := Nat.mod_lt _ (by omega)
  have h2 : m % 10 < 10 := Nat.mod_lt _ (by omega)
  simp [parseNatDigits, pad2, digitChar_isDigit, digitsToNat,
    digitChar_val _ h1, digitChar_val _ h2]
  omega

theorem parse_pad4 (y : Nat) (h : y < 10000) : parseNatDigits (pad4 y) = some y := by
  have h1 : y / 1000 % 10 < 10 := Nat.mod_lt _ (by omega)
  have h2 : y / 100 % 10 < 10 := Nat.mod_lt _ (by omega)
  have h3 : y / 10 % 10 < 10 := Nat.mod_lt _ (by omega)
  have h4 : y % 10 < 10 := Nat.mod_lt _ (by omega)
  simp [parseNatDigits, pad4, digitChar_isDigit, digitsToNat,
    digitChar_val _ h1, digitChar_val _ h2, digitChar_val _ h3, digitChar_val _ h4]
  omega

theorem daysInMonth_le (y m : Nat) : daysInMonth y m ≤ 31 := by
  unfold daysInMonth
  split
  · split <;> omega
  · split <;> omega

theorem strptime_Ymd_iso (y m d : Nat) (h : validDate y m d) :
    strptime_Ymd (isoOf y m d).data = some ⟨y, m, d⟩ := by
  have hy : y < 10000 := by have := h.2.1; omega
  have hm : m < 100 := by have := h.2.2.2.1; omega
  have hd : d < 100 := by
    have h1 := h.2.2.2.2.2
    have h2 := daysInMonth_le y m
    omega
  rw [show (isoOf y m d).data = pad4 y ++ '-' :: (pad2 m ++ '-' :: pad2 d) from rfl]
  unfold strptime_Ymd
  rw [splitOnChar_append '-' (pad4 y) _ (not_mem_pad4 y '-' (by decide)),
    splitOnChar_append '-' (pad2 m) _ (not_mem_pad2 m '-' (by decide)),
    splitOnChar_not_mem '-' (pad2 d) (not_mem_pad2 d '-' (by decide))]
  have hl4 : (pad4 y).length = 4 := rfl
  have hl2m : (pad2 m).length = 2 := rfl
  have hl2d : (pad2 d).length = 2 := rfl
  simp [hl4, hl2m, hl2d, parse_pad4 y hy, parse_pad2 m hm, parse_pad2 d hd, h]

theorem mon3_alpha (m : Nat) : ∀ c ∈ (mon3 m).data, c.isAlpha = true := by
  match m with
  | 0 => decide
  | 1 | 2 | 3 | 4 | 5 | 6 | 7 | 8 | 9 | 10 | 11 | 12 => decide
  | n + 13 => intro c hc; exact absurd hc (by intro h; cases h)

theorem mon3_len (m : Nat) : (mon3 m).data.length = 0 ∨ (mon3 m).data.length = 3 := by
  match m with
  | 0 => decide
  | 1 | 2 | 3 | 4 | 5 | 6 | 7 | 8 | 9 | 10 | 11 | 12 => decide
  | n + 13 => exact Or.inl rfl

theorem listContains_single_false (c : Char) (l : List Char) (h : c ∉ l) :
    listContains [c] l = false := by
  induction l with
  | nil => rfl
  | cons x t ih =>
    have hx : ¬(c = x) := fun he => h (by rw [he]; exact List.mem_cons_self x t)
    have ht : c ∉ t := fun hm => h (List.mem_cons_of_mem x hm)
    simp [listContains, List.isPrefixOf, hx, ih ht]

theorem listContains_single_true (c : Char) (l : List Char) (h : c ∈ l) :
    listContains [c] l = true := by
  induction l with
  | nil => cases h
  | cons x t ih =>
    by_cases hx : c = x
    · subst hx
      simp [listContains, List.isPrefixOf]
    · rcases List.mem_cons.mp h with h1 | h1
      · exact absurd h1 hx
      · simp [listContains, List.isPrefixOf, ih h1]

theorem space_not_mem_iso (y m d : Nat) : ' ' ∉ (isoOf y m d).data := by
  intro hm
  rw [show (isoOf y m d).data = pad4 y ++ '-' :: (pad2 m ++ '-' :: pad2 d) from rfl] at hm
  rcases List.mem_append.mp hm with h | h
  · exact not_mem_pad4 y ' ' (by decide) h
  · rcases List.mem_cons.mp h with h1 | h1
    · exact absurd h1 (by decide)
    · rcases List.mem_append.mp h1 with h2 | h2
      · exact not_mem_pad2 m ' ' (by decide) h2
      · rcases List.mem_cons.mp h2 with h3 | h3
        · exact absurd h3 (by decide)
        · exact not_mem_pad2 d ' ' (by decide) h3

/-- C6: for every valid calendar date, all three accepted shapes — a
native datetime value, the ISO `YYYY-MM-DD` string, and the same ISO
string with a time suffix after a space — normalize to one identical
canonical `D-Mon-YY` string. -/
theorem format_date_unifies_shapes (y m d : Nat) (h : validDate y m d) :
    format_date_for_search (.str (isoOf y m d)) =
      format_date_for_search (.dt ⟨y, m, d⟩) ∧
    format_date_for_search (.str (isoOf y m d ++ " 00:00:00")) =
      format_date_for_search (.dt ⟨y, m, d⟩) := by
  have hns : ' ' ∉ (isoOf y m d).data := space_not_mem_iso y m d
  constructor
  · simp only [format_date_for_search]
    rw [if_neg (by rw [listContains_single_false ' ' _ hns]; exact Bool.false_ne_true)]
    rw [strptime_Ymd_iso y m d h]
  · simp only [format_date_for_search]
    have hdata : (isoOf y m d ++ " 00:00:00").data =
        (isoOf y m d).data ++ ' ' :: "00:00:00".data := by
      rw [String.data_append]
    rw [hdata]
    rw [if_pos (listContains_single_true ' ' _
      (List.mem_append_right _ (List.mem_cons_self _ _)))]
    rw [splitOnChar_append ' ' _ _ hns]
    simp only [List.headD_cons]
    rw [strptime_Ymd_iso y m d h]

/-- C6 witness: the three shapes of 13 March 2025 — `datetime(2025, 3, 13)`,
"2025-03-13" and "2025-03-13 00:00:00" — all normalize to "13-Mar-25",
with no leading zero on the day. -/
theorem format_date_unifies_shapes_witness :
    validDate 2025 3 13 ∧
    (format_date_for_search (.str (isoOf 2025 3 13)) =
        format_date_for_search (.dt ⟨2025, 3, 13⟩) ∧
      format_date_for_search (.str (isoOf 2025 3 13 ++ " 00:00:00")) =
        format_date_for_search (.dt ⟨2025, 3, 13⟩)) ∧
    isoOf 2025 3 13 = "2025-03-13" ∧
    format_date_for_search (.dt ⟨2025, 3, 13⟩) = "13-Mar-25" :=
  ⟨by decide, format_date_unifies_shapes 2025 3 13 (by decide), by decide, by decide⟩

theorem strptime_Ymd_split (cs ys ms ds : List Char)
    (hsplit : splitOnChar '-' cs = [ys, ms, ds]) :
    strptime_Ymd cs =
      if ys.length ≤ 4 ∧ ms.length ≤ 2 ∧ ds.length ≤ 2 then
        match parseNatDigits ys, parseNatDigits ms, parseNatDigits ds with
        | some y, some m, some d => if validDate y m d then some ⟨y, m, d⟩ else none
        | _, _, _ => none
      else none := by
  unfold strptime_Ymd
  rw [hsplit]

theorem dropWhile_append_cons {α : Type} (p : α → Bool) (xs : List α) (y : α)
    (ys : List α) (hy : p y = false) :
    List.dropWhile p (xs ++ y :: ys) = List.dropWhile p xs ++ y :: ys := by
  induction xs with
  | nil => simp [List.dropWhile, hy]
  | cons x t ih =>
    by_cases hx : p x = true
    · simp only [List.cons_append, List.dropWhile_cons, if_pos hx, ih]
    · simp only [List.cons_append, List.dropWhile_cons,
        if_neg hx, List.cons_append]

theorem strptime_sandwich_none (A B : List Char) (m : Nat)
    (hA : '-' ∉ A) (hB : '-' ∉ B) :
    strptime_Ymd (A ++ '-' :: ((mon3 m).data ++ '-' :: B)) = none := by
  have hMne : '-' ∉ (mon3 m).data := fun hm =>
    absurd (mon3_alpha m '-' hm) (by decide)
  have hsplit : splitOnChar '-' (A ++ '-' :: ((mon3 m).data ++ '-' :: B)) =
      [A, (mon3 m).data, B] := by
    rw [splitOnChar_append '-' A _ hA, splitOnChar_append '-' _ _ hMne,
      splitOnChar_not_mem '-' B hB]
  rw [strptime_Ymd_split _ _ _ _ hsplit]
  rcases mon3_len m with h0 | h3
  · have hM : (mon3 m).data = [] := List.length_eq_zero.mp h0
    rw [hM]
    by_cases hcond : A.length ≤ 4 ∧ ([] : List Char).length ≤ 2 ∧ B.length ≤ 2
    · rw [if_pos hcond]
      cases parseNatDigits A <;> cases parseNatDigits B <;> rfl
    · rw [if_neg hcond]
  · rw [if_neg (by rw [h3]; omega)]

theorem strftime_reparse_none (dt : PyDate) :
    strptime_Ymd (lstrip0 (strftime_dby dt)) = none := by
  unfold strftime_dby lstrip0
  rw [dropWhile_append_cons _ _ _ _ (by decide),
    dropWhile_append_cons _ _ _ _ (by decide), List.append_assoc,
    List.cons_append]
  refine strptime_sandwich_none _ _ _ ?_ (not_mem_pad2 _ '-' (by decide))
  intro hm
  exact not_mem_pad2 dt.day '-' (by decide) ((List.dropWhile_sublist _).subset hm)

theorem space_not_mem_canonical (dt : PyDate) : ' ' ∉ lstrip0 (strftime_dby dt) := by
  intro hm
  have h1 : ' ' ∈ strftime_dby dt := (List.dropWhile_sublist _).subset hm
  unfold strftime_dby at h1
  rcases List.mem_append.mp h1 with h | h
  · rcases List.mem_append.mp h with h2 | h2
    · exact not_mem_pad2 _ ' ' (by decide) h2
    · rcases List.mem_cons.mp h2 with h3 | h3
      · exact absurd h3 (by decide)
      · exact absurd (mon3_alpha _ ' ' h3) (by decide)
  · rcases List.mem_cons.mp h with h2 | h2
    · exact absurd h2 (by decide)
    · exact not_mem_pad2 _ ' ' (by decide) h2

/-- When the ISO parse of the relevant core fails, `format_date_for_search`
returns the string unchanged: both the already-canonical branch and the
warning branch of main.py lines 112-119 are `return date_input`. -/
theorem format_str_none (s : String)
    (h : strptime_Ymd (if listContains [' '] s.data then
        (splitOnChar ' ' s.data).headD [] else s.data) = none) :
    format_date_for_search (.str s) = s := by
  simp only [format_date_for_search]
  rw [h]
  cases strptime_dMonyy s.data <;> rfl

/-- A canonical rendering re-fed as a string input is returned unchanged:
its month letters (or, for a degenerate month, an empty middle field) make
the ISO parse fail. -/
theorem format_canonical (dt : PyDate) :
    format_date_for_search (.str ⟨lstrip0 (strftime_dby dt)⟩) =
      (⟨lstrip0 (strftime_dby dt)⟩ : String) := by
  apply format_str_none
  rw [show (⟨lstrip0 (strftime_dby dt)⟩ : String).data = lstrip0 (strftime_dby dt)
    from rfl]
  rw [if_neg (by
    rw [listContains_single_false ' ' _ (space_not_mem_canonical dt)]
    exact Bool.false_ne_true)]
  exact strftime_reparse_none dt

/-- C7 counterexample: the claim quantifies over every input, but
`format_date_for_search` accepts values that are neither `datetime` nor
`str` and renders them with `str()` (main.py line 120). For
`datetime.date(2025, 3, 13)` — not a `datetime` instance — that yields
"2025-03-13", and a second application turns it into "13-Mar-25", so the
function applied to its own output is not the identity there. -/
theorem format_date_not_idempotent_on_other :
    format_date_for_search (.str (format_date_for_search (.other "2025-03-13"))) ≠
      format_date_for_search (.other "2025-03-13") := by decide

/-- C7 as amended: on the accepted shapes — any string input, and any
datetime input — `format_date_for_search` applied to its own output is the
identity; and a string input whose ISO parse fails is returned unchanged
(the function is total, so it never raises). Only inputs that are neither
datetime nor string, where the code falls through to `str(date_input)`,
escape the round-trip property. -/
theorem format_date_idempotent_on_accepted :
    (∀ s : String,
      format_date_for_search (.str (format_date_for_search (.str s))) =
        format_date_for_search (.str s))
    ∧ (∀ dt : PyDate,
        format_date_for_search (.str (format_date_for_search (.dt dt))) =
          format_date_for_search (.dt dt))
    ∧ (∀ s : String,
        strptime_Ymd (if listContains [' '] s.data then
          (splitOnChar ' ' s.data).headD [] else s.data) = none →
        format_date_for_search (.str s) = s) := by
  refine ⟨?_, ?_, format_str_none⟩
  · intro s
    cases hp : strptime_Ymd (if listContains [' '] s.data then
        (splitOnChar ' ' s.data).headD [] else s.data) with
    | none =>
      have e := format_str_none s hp
      rw [e]
      exact e
    | some dt =>
      have e : format_date_for_search (.str s) = ⟨lstrip0 (strftime_dby dt)⟩ := by
        simp only [format_date_for_search]
        rw [hp]
      rw [e]
      exact format_canonical dt
  · intro dt
    exact format_canonical dt

/-- C7 witness: a canonical string round-trips to itself, a datetime's
output round-trips to itself, and an unparseable string is returned
unchanged. -/
theorem format_date_idempotent_witness :
    format_date_for_search (.str (format_date_for_search (.str "13-Mar-25"))) =
      format_date_for_search (.str "13-Mar-25") ∧
    format_date_for_search (.str (format_date_for_search (.dt ⟨2024, 8, 7⟩))) =
      format_date_for_search (.dt ⟨2024, 8, 7⟩) ∧
    format_date_for_search (.str "not a date") = "not a date" :=
  ⟨format_date_idempotent_on_accepted.1 "13-Mar-25",
   format_date_idempotent_on_accepted.2.1 ⟨2024, 8, 7⟩,
   format_date_idempotent_on_accepted.2.2 "not a date" (by decide)⟩
